import Mathlib

/-!
Shallow embedding of the PER-4291-POC authentication module
(`src/auth_handler.py`) and the per-URL driver (`src/web_scraper_universal_new.py`).

Modelling conventions:
* Python strings are Lean `String`s (lists of characters); `str.lower()` is
  `String.toLower` restricted to ASCII, which covers every string the code
  compares; `needle in hay` is the executable substring test `strHasSub`.
* A live Playwright page is modelled as a record of probe outcomes.  Each
  probe (`query_selector`, the `url` attribute, `title()`) either returns a
  value or raises; `Except Unit α` encodes this, `.error ()` standing for a
  raised `Exception`.  A `query_selector` result is truthiness of the returned
  element handle, so `Except Unit Bool`.
* Effects of the orchestrator (navigation, sleeping, cookie I/O) are driven
  by an explicit environment `Env`; elapsed time is the number of seconds
  slept so far, and `page.goto` calls are numbered in call order.
-/

namespace Auth

/-- Python `needle in hay` at the character-list level:
`hasSubAux needle hay` is true iff `needle` occurs contiguously in `hay`. -/
def hasSubAux (needle : List Char) : List Char → Bool
  | [] => needle.isEmpty
  | c :: rest => needle.isPrefixOf (c :: rest) || hasSubAux needle rest

/-- Python `needle in hay` on strings. -/
def strHasSub (hay needle : String) : Bool :=
  hasSubAux needle.data hay.data

/-- Python `s.lower()` (the code only compares ASCII text). -/
def strLower (s : String) : String :=
  ⟨s.data.map Char.toLower⟩

/-- A live browsing page, as the detector heuristics observe it.
`querySelector s = .error ()` means the probe raised (navigation race,
detached document, invalid page object); `.ok b` means it returned an
element handle (`b = true`) or `None` (`b = false`).  Likewise `url` and
`title` either yield a string or raise. -/
structure Page where
  querySelector : String → Except Unit Bool
  url : Except Unit String
  title : Except Unit String

/-- One guarded probe of `is_login_required`: a raised exception is caught at
the probe and treated as "not found". -/
def probe (page : Page) (sel : String) : Bool :=
  match page.querySelector sel with
  | .ok b => b
  | .error _ => false

def instagramSel : String := "text=\"Sign up for Instagram\""
def usernameSel : String := "input[name=\"username\"]"
def passwordSel : String := "input[type=\"password\"]"
def createAccountSel : String := "a:has-text(\"Create new account\")"

def url_login_indicators : List String :=
  ["login", "signin", "sign-in", "signup", "sign-up", "register", "auth", "accounts"]

def title_indicators : List String :=
  ["login", "sign in", "sign up", "register", "log in"]

def login_buttons : List String :=
  [ "button:has-text(\"Log in\")"
  , "button:has-text(\"Sign in\")"
  , "button:has-text(\"Login\")"
  , "button:has-text(\"Log In\")"
  , "button:has-text(\"Sign In\")"
  , "a:has-text(\"Log in\")"
  , "a:has-text(\"Sign in\")" ]

/-- The login-form probe of `is_login_required`: both `query_selector` calls
live in one `try`, so a raise in either leaves the probe inconclusive. -/
def loginFormProbe (page : Page) : Bool :=
  match page.querySelector usernameSel, page.querySelector passwordSel with
  | .ok u, .ok p => u && p
  | _, _ => false

/-- The URL probe: `page.url.lower()` is read inside the `try`, so a raise
skips the whole check; otherwise any of the eight substrings signals login. -/
def urlProbe (page : Page) : Bool :=
  match page.url with
  | .ok u => url_login_indicators.any (fun ind => strHasSub (strLower u) ind)
  | .error _ => false

/-- The title probe, analogous to the URL probe with five phrases. -/
def titleProbe (page : Page) : Bool :=
  match page.title with
  | .ok t => title_indicators.any (fun ind => strHasSub (strLower t) ind)
  | .error _ => false

/-- `AuthHandler.is_login_required` (auth_handler.py:53-136): a
priority-ordered OR of six guarded heuristics, returning at the first
positive one.  Every probe is individually wrapped in `try/except Exception`,
so the outer `except` (which would return `True`) is unreachable for any
exception raised by a page access; the function is total. -/
def is_login_required (page : Page) : Bool :=
  if probe page instagramSel then true
  else if loginFormProbe page then true
  else if urlProbe page then true
  else if titleProbe page then true
  else if login_buttons.any (fun sel => probe page sel) then true
  else if probe page createAccountSel then true
  else false

def profile_indicators : List String :=
  [ "header img[alt*=\"profile picture\"]"
  , "section:has-text(\"posts\")"
  , "section:has-text(\"followers\")"
  , "article"
  , "div:has-text(\"Posts\")"
  , "svg[aria-label=\"Home\"]"
  , "svg[aria-label=\"Profile\"]" ]

def fb_indicators : List String :=
  [ "a[aria-label=\"Home\"]"
  , "a[aria-label=\"Profile\"]"
  , "div[role=\"navigation\"]"
  , "svg[aria-label=\"Notifications\"]"
  , "div:has-text(\"Friends\")"
  , "div[aria-label=\"Your profile\"]"
  , "a[href*=\"/friends/\"]" ]

/-- `AuthHandler.is_logged_in` (auth_handler.py:138-200).  The page is a
single snapshot for the whole call (the claims' "unchanging page"); each
indicator probe is guarded, and the platform branches fall through to the
generic `not is_login_required(page)` check when no marker is found. -/
def is_logged_in (page : Page) (original_url : String) : Bool :=
  if is_login_required page then false
  else if strHasSub original_url "instagram.com"
          && profile_indicators.any (fun sel => probe page sel) then true
  else if strHasSub original_url "facebook.com"
          && fb_indicators.any (fun sel => probe page sel) then true
  else !is_login_required page

end Auth

namespace Auth

/-- A test page whose only elements are a username input and a password
input: no URL or title indicators, no buttons. -/
def formPage : Page where
  querySelector := fun s => .ok (s == usernameSel || s == passwordSel)
  url := .ok "https://example.com/profile"
  title := .ok "A page"

/-- A test page with no login markup and no login-indicating URL or title. -/
def plainPage : Page where
  querySelector := fun _ => .ok false
  url := .ok "https://example.com/profile"
  title := .ok "A page"

/-- A page whose every access raises — how an invalid/closed page object
manifests to the detector (Playwright errors subclass `Exception`). -/
def deadPage : Page where
  querySelector := fun _ => .error ()
  url := .error ()
  title := .error ()

end Auth

example : Auth.is_login_required Auth.formPage = true := by decide
example : Auth.is_login_required Auth.plainPage = false := by decide
example : Auth.is_login_required Auth.deadPage = false := by decide
example : Auth.is_logged_in Auth.plainPage "https://example.com/profile" = true := by decide

namespace Auth

/-! ### Cookie store (`_get_domain_key`, `_get_cookie_file`, `load_cookies`) -/

/-- Characters `urllib.parse` accepts inside a URL scheme. -/
def isSchemeChar (c : Char) : Bool :=
  c.isAlpha || c.isDigit || c == '+' || c == '-' || c == '.'

/-- The scheme-stripping step of `urllib.parse.urlsplit`: when the text up to
the first `:` is a syntactically valid scheme (first char a letter, all chars
scheme characters), drop it together with the colon; otherwise leave the URL
unchanged. -/
def splitScheme (u : List Char) : List Char :=
  match u.findIdx? (fun c => c == ':') with
  | some i =>
      if 0 < i && (u.take i).all isSchemeChar && (u.headD ' ').isAlpha then
        u.drop (i + 1)
      else u
  | none => u

/-- `urlparse(url).netloc`: after scheme stripping, the netloc is nonempty
only when the remainder starts with `//`, and then runs to the first of
`/`, `?`, `#`. -/
def netlocOf (url : String) : String :=
  let u := splitScheme url.data
  if u.take 2 = ['/', '/'] then
    ⟨(u.drop 2).takeWhile (fun c => !(c == '/' || c == '?' || c == '#'))⟩
  else ""

/-- Python `s.replace("www.", "")`: remove every (left-to-right,
non-overlapping) occurrence of `www.`. -/
def stripWWW : List Char → List Char
  | 'w' :: 'w' :: 'w' :: '.' :: rest => stripWWW rest
  | c :: rest => c :: stripWWW rest
  | [] => []

/-- `AuthHandler._get_domain_key` (auth_handler.py:15-19):
`urlparse(url).netloc.replace('www.', '').split(':')[0]`. -/
def get_domain_key (url : String) : String :=
  ⟨(stripWWW (netlocOf url).data).takeWhile (fun c => !(c == ':'))⟩

/-- A character `re.sub(r'[^\w\.-]', '_', ...)` keeps: `\w` (modelled over
ASCII, the alphabet the repository's URLs use) plus `.` and `-`. -/
def isSafeChar (c : Char) : Bool :=
  c.isAlpha || c.isDigit || c == '_' || c == '.' || c == '-'

/-- The sanitization inside `_get_cookie_file` (auth_handler.py:24). -/
def sanitizeDomain (s : String) : String :=
  ⟨s.data.map (fun c => if isSafeChar c then c else '_')⟩

/-- The spec's `derive_key`: the full domain-key derivation behind the cookie
file name — `_get_domain_key` followed by the sanitization step of
`_get_cookie_file`. -/
def derive_key (url : String) : String :=
  sanitizeDomain (get_domain_key url)

def cookie_dir : String := "cookies"

/-- `AuthHandler._get_cookie_file` (auth_handler.py:21-25). -/
def get_cookie_file (url : String) : String :=
  cookie_dir ++ "/" ++ derive_key url ++ "_cookies.json"

/-- What the cookie-file path on disk can hold: a JSON document that parses
to a cookie list, or bytes on which `json.load` raises. -/
inductive FileContent where
  | valid (cookies : List String)
  | corrupt
deriving DecidableEq

/-- `AuthHandler.load_cookies` (auth_handler.py:27-40).  `files` is the
filesystem (path to content, `none` = no file); `addCookies` models
`context.add_cookies`, which may raise.  `open`/`json.load`/`add_cookies`
are all inside the `try`, so any of their failures falls through to
`return False`. -/
def load_cookies (files : String → Option FileContent)
    (addCookies : List String → Except Unit Unit) (url : String) : Bool :=
  match files (get_cookie_file url) with
  | none => false
  | some .corrupt => false
  | some (.valid cs) =>
      match addCookies cs with
      | .ok _ => true
      | .error _ => false

/-! ### Authentication orchestrator (`handle_authentication`) -/

/-- The effect environment driving one `handle_authentication` call:
`gotoFails n` — the `n`-th `page.goto` call raises; `loggedIn t` — what
`is_logged_in(page, original_url)` returns when invoked after `t` seconds
of sleeping (`is_logged_in` itself never raises: its outer `except` returns
`False`); `saveFails` — `save_cookies` raises on I/O failure. -/
structure Env where
  loadOk : Bool
  gotoFails : Nat → Bool
  loggedIn : Nat → Bool
  saveFails : Bool

/-- Observations of the countdown wait loop. -/
structure WaitRes where
  logged : Bool
  slept : Nat
  polls : List Nat
  reminders : List Nat
  breakAt : Option Nat
deriving DecidableEq

/-- The countdown loop of `handle_authentication` (auth_handler.py:244-262):
`for i in range(timeout, 0, -1)`, polling `is_logged_in` when `i % 3 == 0`
(breaking on success before any sleep), printing a reminder when moreover
`i % 9 == 0` and the poll failed, and sleeping 1 second at the end of each
iteration.  `t` is the elapsed sleep time when the iteration at counter `i`
runs. -/
def waitLoop (env : Env) : Nat → Nat → WaitRes
  | _, 0 => ⟨false, 0, [], [], none⟩
  | t, i + 1 =>
      let n := i + 1
      if n % 3 = 0 then
        if env.loggedIn t then ⟨true, 0, [n], [], some n⟩
        else
          let rest := waitLoop env (t + 1) i
          ⟨rest.logged, rest.slept + 1, n :: rest.polls,
           (if n % 9 = 0 then [n] else []) ++ rest.reminders, rest.breakAt⟩
      else
        let rest := waitLoop env (t + 1) i
        ⟨rest.logged, rest.slept + 1, rest.polls, rest.reminders, rest.breakAt⟩

/-- Observations of the verification phase: `saves` counts completed cookie
writes, `saveCalls` counts `save_cookies` invocations (a raising call is
caught by the surrounding `try`), `checks` records each attempt's
`is_logged_in` poll as (elapsed time, result). -/
structure VerifyRes where
  ok : Bool
  saves : Nat
  saveCalls : Nat
  checks : List (Nat × Bool)
deriving DecidableEq

/-- The verification retry loop of `handle_authentication`
(auth_handler.py:286-309): up to `fuel` attempts (invoked with 3); on a
successful poll, `save_cookies` then `return True` — a raise in
`save_cookies` is caught by the attempt's `try` and the attempt counts as
failed.  Between attempts: `sleep(2)`, then `goto` (call number `g`) with
`sleep(3)` after it, the `sleep(3)` being skipped when the `goto` raises. -/
def verifyLoop (env : Env) : Nat → Nat → Nat → VerifyRes
  | _, _, 0 => ⟨false, 0, 0, []⟩
  | t, g, fuel + 1 =>
      let check := env.loggedIn t
      if check && !env.saveFails then ⟨true, 1, 1, [(t, true)]⟩
      else if fuel = 0 then ⟨false, 0, if check then 1 else 0, [(t, check)]⟩
      else
        let t2 := if env.gotoFails g then t + 2 else t + 2 + 3
        let rest := verifyLoop env t2 (g + 1) fuel
        ⟨rest.ok, rest.saves, (if check then 1 else 0) + rest.saveCalls,
         (t, check) :: rest.checks⟩

/-- The observable outcome of `handle_authentication` when it returns:
the boolean, the cookie-file paths written (completed `save_cookies`
writes), the number of `save_cookies` invocations, and whether the wait
loop was entered, plus the wait-loop observations. -/
structure AuthOut where
  ok : Bool
  savedFiles : List String
  saveCalls : Nat
  enteredWait : Bool
  wait : WaitRes
deriving DecidableEq

/-- The settle-and-re-navigate step after a successful wait
(auth_handler.py:268-284): `sleep(2)`, a guarded `goto` (call 1); on its
failure `sleep(3)` and a second guarded `goto` (call 2); `sleep(5)` after
a `goto` that succeeded.  Given the elapsed time `tb` at which the wait
loop broke, returns the elapsed time at which verification starts. -/
def renavTime (env : Env) (tb : Nat) : Nat :=
  if env.gotoFails 1 then (if env.gotoFails 2 then tb + 2 + 3 else tb + 2 + 3 + 5)
  else tb + 2 + 5

/-- Index of the next `goto` call after the re-navigation step. -/
def renavGoto (env : Env) : Nat :=
  if env.gotoFails 1 then 3 else 2

/-- `AuthHandler.handle_authentication` (auth_handler.py:202-312).
`Except.error ()` is an exception escaping to the caller: the initial
`page.goto(original_url)` at line 215 is the one navigation outside any
`try`.  After it, `sleep(5)`; the initial `is_logged_in` check (its `try`
is dead code since `is_logged_in` cannot raise); the wait loop from `t = 5`;
on wait success the re-navigation step (`renavTime`/`renavGoto`); then the
verification loop with 3 attempts, whose `saves` determine the cookie
files written. -/
def handle_authentication (env : Env) (original_url : String) (timeout : Nat) :
    Except Unit AuthOut :=
  if env.gotoFails 0 then .error ()
  else if env.loggedIn 5 then
    .ok ⟨true, [], 0, false, ⟨false, 0, [], [], none⟩⟩
  else if (waitLoop env 5 timeout).logged then
    .ok ⟨(verifyLoop env (renavTime env (5 + (waitLoop env 5 timeout).slept))
            (renavGoto env) 3).ok,
         List.replicate
           (verifyLoop env (renavTime env (5 + (waitLoop env 5 timeout).slept))
             (renavGoto env) 3).saves
           (get_cookie_file original_url),
         (verifyLoop env (renavTime env (5 + (waitLoop env 5 timeout).slept))
           (renavGoto env) 3).saveCalls,
         true, waitLoop env 5 timeout⟩
  else
    .ok ⟨false, [], 0, true, waitLoop env 5 timeout⟩

/-! ### The per-URL driver (`run` in web_scraper_universal_new.py) -/

/-- Effects of one `run(playwright, url, ...)` call after the browser and
context are created: the unguarded `page.goto(url)` at line 388, the
`handle_authentication` call (which may itself raise, or return a boolean),
and the scraping phase (everything from `wait_for_load_state` to the
summary write), any part of which may raise. -/
structure RunEnv where
  gotoRaises : Bool
  auth : Except Unit Bool
  scrape : Except Unit Unit

/-- What `run` did on exit: its result (`error` = an exception escaped) and
whether `context.close()` / `browser.close()` were executed. -/
structure RunOut where
  result : Except Unit Unit
  contextClosed : Bool
  browserClosed : Bool

/-- `run` (web_scraper_universal_new.py:343-445): no `try/finally` —
an exception from the initial `goto`, from `handle_authentication`, or from
scraping propagates with neither close executed; the authentication-failure
early return (lines 392-395) runs only `browser.close()`; the normal end
(lines 444-445) runs `context.close()` then `browser.close()`. -/
def run (env : RunEnv) : RunOut :=
  if env.gotoRaises then ⟨.error (), false, false⟩
  else
    match env.auth with
    | .error _ => ⟨.error (), false, false⟩
    | .ok false => ⟨.ok (), false, true⟩
    | .ok true =>
        match env.scrape with
        | .error _ => ⟨.error (), false, false⟩
        | .ok _ => ⟨.ok (), true, true⟩

end Auth

example : Auth.derive_key "https://a.com/x" = "a.com" := by decide
example : Auth.derive_key "http://www.a.com/y?z=1" = "a.com" := by decide
example : Auth.derive_key "a.com" = "" := by decide
example : Auth.derive_key "https://awww.com/" = "acom" := by decide

namespace Auth

/-! ### Helper lemmas -/

theorem mem_of_mem_dropN {α : Type} {a : α} : ∀ (n : Nat) (l : List α), a ∈ l.drop n → a ∈ l
  | 0, _, h => by simpa using h
  | _ + 1, [], h => by simp at h
  | n + 1, _ :: l, h => List.mem_cons_of_mem _ (mem_of_mem_dropN n l h)

theorem mem_of_mem_takeN {α : Type} {a : α} : ∀ (n : Nat) (l : List α), a ∈ l.take n → a ∈ l
  | 0, _, h => by simp at h
  | _ + 1, [], h => by simp at h
  | n + 1, c :: l, h => by
      rcases List.mem_cons.mp h with h | h
      · exact h ▸ List.mem_cons_self c l
      · exact List.mem_cons_of_mem _ (mem_of_mem_takeN n l h)

/-- `splitScheme` only ever removes a prefix, so its characters come from
the input. -/
theorem mem_of_mem_splitScheme {c : Char} {u : List Char}
    (h : c ∈ splitScheme u) : c ∈ u := by
  unfold splitScheme at h
  split at h
  · split at h
    · exact mem_of_mem_dropN _ _ h
    · exact h
  · exact h

/-- Every character of a sanitized domain satisfies `isSafeChar`. -/
theorem sanitizeDomain_safe (s : String) :
    ∀ c ∈ (sanitizeDomain s).data, isSafeChar c = true := by
  intro c hc
  have hc' : c ∈ s.data.map (fun c => if isSafeChar c then c else '_') := hc
  rcases List.mem_map.mp hc' with ⟨a, _, rfl⟩
  by_cases h : isSafeChar a = true
  · simp [h]
  · rw [if_neg h]
    decide

/-- Every character of `derive_key url` satisfies `isSafeChar`. -/
theorem derive_key_safe (url : String) :
    ∀ c ∈ (derive_key url).data, isSafeChar c = true :=
  sanitizeDomain_safe _

/-- A string without `/` has an empty netloc: no scheme strip can create a
leading `//`. -/
theorem netlocOf_eq_empty_of_safe (s : String)
    (h : ∀ c ∈ s.data, isSafeChar c = true) : netlocOf s = "" := by
  unfold netlocOf
  have hslash : ('/' : Char) ∉ splitScheme s.data := by
    intro hmem
    have := h '/' (mem_of_mem_splitScheme hmem)
    simp [isSafeChar] at this
  rw [if_neg]
  intro htake
  apply hslash
  apply mem_of_mem_takeN 2
  rw [htake]
  simp

/-- A string with an empty netloc derives the empty key. -/
theorem derive_key_of_netloc_empty (s : String) (h : netlocOf s = "") :
    derive_key s = "" := by
  unfold derive_key get_domain_key
  rw [h]
  rfl

/-- Re-deriving a key from an already-derived key always yields the empty
string: a derived key has no scheme and no `//`, so `urlparse` puts it in
the path and the netloc is empty. -/
theorem derive_key_derive_key (url : String) :
    derive_key (derive_key url) = "" :=
  derive_key_of_netloc_empty _
    (netlocOf_eq_empty_of_safe (derive_key url) (derive_key_safe url))

end Auth

namespace Auth

/-! ### C5: the domain-key derivation -/

/-- C5, counterexample.  The claim asserts `derive_key` is idempotent and
strips only a leading `www.`; on the code, `derive_key (derive_key url)`
collapses to `""` (an already-derived key has no netloc under `urlparse`),
and `.replace('www.', '')` deletes an interior `www.` of the host
`awww.com`, giving `acom` rather than `awww.com`. -/
theorem claim5_counterexample :
    derive_key (derive_key "https://a.com/x") ≠ derive_key "https://a.com/x" ∧
    derive_key "https://awww.com/" ≠ "awww.com" := by
  constructor
  · decide
  · decide

/-- C5, amended: `derive_key` (being a pure function of the URL) is
deterministic, is scheme/path/query-insensitive on the claim's examples
(`https://a.com/x` and `http://www.a.com/y?z=1` both map to `a.com`),
deletes every occurrence of `www.` in the host (not only a leading one:
`awww.com ↦ acom`), strips the trailing port, sanitizes every character
outside `[A-Za-z0-9._-]` to `_`, and is not idempotent: applying it to an
already-derived key always yields `""`, because the key has no scheme or
`//` so `urlparse` reports an empty netloc. -/
theorem claim5_amended :
    (derive_key "https://a.com/x" = "a.com" ∧
     derive_key "http://www.a.com/y?z=1" = "a.com") ∧
    (derive_key "https://awww.com/" = "acom" ∧
     derive_key "https://www.a.com:8080/p" = "a.com") ∧
    (∀ url c, c ∈ (derive_key url).data → isSafeChar c = true) ∧
    (∀ url, derive_key (derive_key url) = "") := by
  refine ⟨⟨by decide, by decide⟩, ⟨by decide, by decide⟩, ?_, ?_⟩
  · intro url c hc
    exact derive_key_safe url c hc
  · intro url
    exact derive_key_derive_key url

/-- C5 witness: the amended theorem applied at concrete inputs, with each
hypothesis discharged there. -/
theorem claim5_witness :
    isSafeChar 'a' = true ∧ derive_key (derive_key "https://a.com/x") = "" :=
  ⟨claim5_amended.2.2.1 "https://a.com/x" 'a' (by decide),
   claim5_amended.2.2.2 "https://a.com/x"⟩

/-! ### C10: `load_cookies` -/

/-- C10: `load_cookies` returns `true` exactly when a cookie file exists
for the derived domain key of the URL, deserializes to a cookie list, and
the injection into the browsing context succeeds; a missing file, a corrupt
file, or a failing injection yields `false`.  The function is total (the
`try` swallows every raise), so it never propagates an error. -/
theorem claim10_load_cookies (files : String → Option FileContent)
    (addCookies : List String → Except Unit Unit) (url : String) :
    load_cookies files addCookies url = true ↔
      ∃ cs, files (get_cookie_file url) = some (.valid cs) ∧
        addCookies cs = .ok () := by
  unfold load_cookies
  cases hf : files (get_cookie_file url) with
  | none => simp [hf]
  | some fc =>
      cases fc with
      | corrupt => simp
      | valid cs =>
          cases hadd : addCookies cs with
          | ok u => cases u; simp [hadd]
          | error e => cases e; simp [hadd]

end Auth

namespace Auth

/-! ### C6, C7, C8: the login detector -/

/-- The page obtained by replacing every raising probe with its caught
interpretation: a raising `query_selector` is "element not found", a
raising `url`/`title` read is an empty string (which matches no
indicator). -/
def deErrPage (p : Page) : Page where
  querySelector := fun s => .ok (probe p s)
  url := .ok (match p.url with | .ok u => u | .error _ => "")
  title := .ok (match p.title with | .ok t => t | .error _ => "")

theorem probe_deErr (p : Page) (s : String) : probe (deErrPage p) s = probe p s := rfl

theorem loginFormProbe_deErr (p : Page) :
    loginFormProbe (deErrPage p) = loginFormProbe p := by
  unfold loginFormProbe deErrPage probe
  cases hu : p.querySelector usernameSel <;> cases hp : p.querySelector passwordSel <;>
    simp [hu, hp]

theorem urlProbe_deErr (p : Page) : urlProbe (deErrPage p) = urlProbe p := by
  unfold urlProbe deErrPage
  cases hu : p.url with
  | ok u => rfl
  | error e => rfl

theorem titleProbe_deErr (p : Page) : titleProbe (deErrPage p) = titleProbe p := by
  unfold titleProbe deErrPage
  cases ht : p.title with
  | ok t => rfl
  | error e => rfl

/-- C6, counterexample.  The claim asserts that when the page object itself
is invalid the detector returns `true` (fail-safe).  On the code, every
page access of an invalid page raises an `Exception`, each raise is caught
by the per-probe handler (so the outer `except` never fires), every probe
reads as "not found", and `is_login_required` returns `false`. -/
theorem claim6_counterexample : is_login_required deadPage = false := by decide

/-- C6, amended: `is_login_required` never propagates an error (it is a
total boolean function of the page); an error raised by any individual
probe is swallowed at that probe only and treated as a negative/
inconclusive signal with the remaining probes still evaluated — replacing
every raising probe by its caught "not found"/empty reading leaves the
result unchanged; and a page whose every access raises yields `false`,
because each raise is caught per-probe, leaving the outer fail-safe
(`return True`) unreachable for page-access errors. -/
theorem claim6_amended :
    (∀ p : Page, is_login_required (deErrPage p) = is_login_required p) ∧
    is_login_required deadPage = false := by
  refine ⟨?_, by decide⟩
  intro p
  unfold is_login_required
  rw [probe_deErr, probe_deErr, loginFormProbe_deErr, urlProbe_deErr, titleProbe_deErr]
  have hb : (login_buttons.any fun sel => probe (deErrPage p) sel) =
      (login_buttons.any fun sel => probe p sel) := by
    simp only [probe_deErr]
  rw [hb]

/-- A page none of whose modelled accesses raises. -/
def NonThrowing (p : Page) : Prop :=
  (∀ s, p.querySelector s ≠ .error ()) ∧ p.url ≠ .error () ∧ p.title ≠ .error ()

/-- The spec's six priority-ordered heuristics, stated over the page
content: a site-specific signup prompt; a username-like input together
with a password-type input; a login substring in the page URL; a login
phrase in the page title; a login button or link with a listed visible
text; a "Create new account" link. -/
def loginHeuristics (p : Page) : Prop :=
  p.querySelector instagramSel = .ok true ∨
  (p.querySelector usernameSel = .ok true ∧ p.querySelector passwordSel = .ok true) ∨
  (∃ u, p.url = .ok u ∧ ∃ ind ∈ url_login_indicators, strHasSub (strLower u) ind = true) ∨
  (∃ t, p.title = .ok t ∧ ∃ ind ∈ title_indicators, strHasSub (strLower t) ind = true) ∨
  (∃ sel ∈ login_buttons, p.querySelector sel = .ok true) ∨
  p.querySelector createAccountSel = .ok true

theorem is_login_required_eq_or (p : Page) : is_login_required p =
    (probe p instagramSel || loginFormProbe p || urlProbe p || titleProbe p ||
     login_buttons.any (fun sel => probe p sel) || probe p createAccountSel) := by
  unfold is_login_required
  cases probe p instagramSel <;> cases loginFormProbe p <;> cases urlProbe p <;>
    cases titleProbe p <;> cases login_buttons.any (fun sel => probe p sel) <;>
    cases probe p createAccountSel <;> rfl

theorem probe_true_iff (p : Page) (s : String) :
    probe p s = true ↔ p.querySelector s = .ok true := by
  unfold probe
  cases h : p.querySelector s <;> simp

theorem loginFormProbe_true_iff (p : Page) :
    loginFormProbe p = true ↔
      (p.querySelector usernameSel = .ok true ∧ p.querySelector passwordSel = .ok true) := by
  unfold loginFormProbe
  cases hu : p.querySelector usernameSel <;> cases hp : p.querySelector passwordSel <;> simp

theorem urlProbe_true_iff (p : Page) :
    urlProbe p = true ↔
      ∃ u, p.url = .ok u ∧ ∃ ind ∈ url_login_indicators, strHasSub (strLower u) ind = true := by
  unfold urlProbe
  cases h : p.url <;> simp [List.any_eq_true]

theorem titleProbe_true_iff (p : Page) :
    titleProbe p = true ↔
      ∃ t, p.title = .ok t ∧ ∃ ind ∈ title_indicators, strHasSub (strLower t) ind = true := by
  unfold titleProbe
  cases h : p.title <;> simp [List.any_eq_true]

theorem buttons_any_true_iff (p : Page) :
    (login_buttons.any fun sel => probe p sel) = true ↔
      ∃ sel ∈ login_buttons, p.querySelector sel = .ok true := by
  simp [List.any_eq_true, probe_true_iff]

/-- C7: for every non-throwing page, `is_login_required` returns `true`
iff at least one of the six priority-ordered heuristics signals positive. -/
theorem claim7_detector_iff (p : Page) (_hp : NonThrowing p) :
    is_login_required p = true ↔ loginHeuristics p := by
  rw [is_login_required_eq_or]
  simp only [Bool.or_eq_true]
  rw [probe_true_iff p instagramSel, loginFormProbe_true_iff, urlProbe_true_iff,
    titleProbe_true_iff, buttons_any_true_iff, probe_true_iff p createAccountSel]
  unfold loginHeuristics
  simp only [or_assoc]

/-- C7 witness: the theorem applied to the claim's two concrete pages —
the page whose only elements are a username and a password input is
classified as login-required, the page with no login markup and no
login-indicating URL/title is not. -/
theorem claim7_witness :
    (is_login_required formPage = true ↔ loginHeuristics formPage) ∧
    is_login_required formPage = true ∧ is_login_required plainPage = false := by
  refine ⟨claim7_detector_iff formPage ⟨?_, ?_, ?_⟩, by decide, by decide⟩
  · intro s h
    simp [formPage] at h
  · intro h
    simp [formPage] at h
  · intro h
    simp [formPage] at h

/-- C8: `is_logged_in` returns `false` whenever `is_login_required` is
`true`; and for an unchanging page (one snapshot for the whole call — any
error at an individual indicator probe is caught and read as "not found"),
`is_logged_in` coincides with `not is_login_required` for every
`original_url`, platform-matching or not: when `is_login_required` is
`false`, every remaining branch of the function (platform marker found,
platform marker absent, generic fallback) returns `true`.  In particular a
public page with no login indicators counts as authenticated. -/
theorem claim8_logged_in :
    (∀ (p : Page) (u : String), is_login_required p = true → is_logged_in p u = false) ∧
    (∀ (p : Page) (u : String), is_logged_in p u = !is_login_required p) := by
  constructor
  · intro p u h
    unfold is_logged_in
    simp [h]
  · intro p u
    unfold is_logged_in
    cases h : is_login_required p with
    | true => simp
    | false => simp

/-- C8 witness: the theorem applied at concrete pages and URLs. -/
theorem claim8_witness :
    is_logged_in formPage "https://example.com/a" = false ∧
    is_logged_in plainPage "https://example.com/a" = !is_login_required plainPage :=
  ⟨claim8_logged_in.1 formPage "https://example.com/a" (by decide),
   claim8_logged_in.2 plainPage "https://example.com/a"⟩

end Auth

namespace Auth

/-! ### Wait-loop lemmas (for C1-C4) -/

/-- `[n, n-1, ..., 1]`: the remaining-seconds counter of the wait loop. -/
def countdown : Nat → List Nat
  | 0 => []
  | n + 1 => (n + 1) :: countdown n

/-- Every poll of an `n`-second wait starting at elapsed time `t0` fails:
polls happen at remaining count `i` (a positive multiple of 3, at most
`n`), at elapsed time `t0 + (n - i)`. -/
def noPollSuccess (env : Env) (t0 n : Nat) : Prop :=
  ∀ i, 1 ≤ i → i ≤ n → i % 3 = 0 → env.loggedIn (t0 + (n - i)) = false

/-- When every poll fails, the wait loop runs its full budget: not logged
in, `n` seconds slept, a poll at every multiple of 3 of the countdown, a
reminder at every multiple of 9, no break. -/
theorem waitLoop_no_success (env : Env) :
    ∀ (n t0 : Nat), noPollSuccess env t0 n →
      waitLoop env t0 n =
        ⟨false, n, (countdown n).filter (fun i => decide (i % 3 = 0)),
         (countdown n).filter (fun i => decide (i % 9 = 0)), none⟩ := by
  intro n
  induction n with
  | zero => intro t0 _; rfl
  | succ m ih =>
      intro t0 h
      have hrec : noPollSuccess env (t0 + 1) m := by
        intro i h1 h2 h3
        have hx := h i h1 (Nat.le_succ_of_le h2) h3
        have heq : t0 + (m + 1 - i) = t0 + 1 + (m - i) := by omega
        rw [heq] at hx
        exact hx
      by_cases h3 : (m + 1) % 3 = 0
      · have hlog : env.loggedIn t0 = false := by
          have hx := h (m + 1) (by omega) (Nat.le_refl _) h3
          simpa using hx
        by_cases h9 : (m + 1) % 9 = 0
        · simp [waitLoop, h3, hlog, ih (t0 + 1) hrec, countdown, h9]
        · simp [waitLoop, h3, hlog, ih (t0 + 1) hrec, countdown, h9]
      · have h9 : ¬(m + 1) % 9 = 0 := by omega
        simp [waitLoop, h3, ih (t0 + 1) hrec, countdown, h9]

/-- When the poll at remaining count `i` is the first (highest-count) one
to succeed, the wait loop breaks there: logged in, exactly `n - i` seconds
slept, break recorded at `i`. -/
theorem waitLoop_break (env : Env) :
    ∀ (n t0 i : Nat), 1 ≤ i → i ≤ n → i % 3 = 0 →
      env.loggedIn (t0 + (n - i)) = true →
      (∀ j, i < j → j ≤ n → j % 3 = 0 → env.loggedIn (t0 + (n - j)) = false) →
      (waitLoop env t0 n).logged = true ∧ (waitLoop env t0 n).slept = n - i ∧
        (waitLoop env t0 n).breakAt = some i := by
  intro n
  induction n with
  | zero => intro t0 i h1 h2 _ _ _; omega
  | succ m ih =>
      intro t0 i h1 h2 h3 htrue hafter
      by_cases heq : i = m + 1
      · subst heq
        have ht : env.loggedIn t0 = true := by simpa using htrue
        refine ⟨?_, ?_, ?_⟩ <;> simp [waitLoop, h3, ht]
      · have h2' : i ≤ m := by omega
        have htrue' : env.loggedIn (t0 + 1 + (m - i)) = true := by
          have heq2 : t0 + (m + 1 - i) = t0 + 1 + (m - i) := by omega
          rw [heq2] at htrue
          exact htrue
        have hafter' : ∀ j, i < j → j ≤ m → j % 3 = 0 →
            env.loggedIn (t0 + 1 + (m - j)) = false := by
          intro j hj1 hj2 hj3
          have hx := hafter j hj1 (Nat.le_succ_of_le hj2) hj3
          have heq2 : t0 + (m + 1 - j) = t0 + 1 + (m - j) := by omega
          rw [heq2] at hx
          exact hx
        have hrec := ih (t0 + 1) i h1 h2' h3 htrue' hafter'
        by_cases hm3 : (m + 1) % 3 = 0
        · have hlog : env.loggedIn t0 = false := by
            have hx := hafter (m + 1) (by omega) (Nat.le_refl _) hm3
            simpa using hx
          refine ⟨?_, ?_, ?_⟩ <;> simp [waitLoop, hm3, hlog]
          · exact hrec.1
          · have hs := hrec.2.1
            omega
          · exact hrec.2.2
        · refine ⟨?_, ?_, ?_⟩ <;> simp [waitLoop, hm3]
          · exact hrec.1
          · have hs := hrec.2.1
            omega
          · exact hrec.2.2

end Auth

namespace Auth

/-! ### Verification-loop lemmas (for C3, C4) -/

/-- The verification loop makes at most `fuel` attempts. -/
theorem verifyLoop_checks_len (env : Env) :
    ∀ (fuel t g : Nat), (verifyLoop env t g fuel).checks.length ≤ fuel := by
  intro fuel
  induction fuel with
  | zero => intro t g; simp [verifyLoop]
  | succ m ih =>
      intro t g
      by_cases hc : (env.loggedIn t && !env.saveFails) = true
      · simp [verifyLoop, hc]
      · by_cases hm : m = 0
        · subst hm; simp [verifyLoop, hc]
        · simp only [verifyLoop, hc, if_false, hm, List.length_cons]
          exact Nat.succ_le_succ (ih _ _)

/-- When `save_cookies` cannot fail, the loop saves exactly once on
success and never on failure, and every `save_cookies` call completes. -/
theorem verifyLoop_saves (env : Env) (hs : env.saveFails = false) :
    ∀ (fuel t g : Nat),
      (verifyLoop env t g fuel).saves =
        (if (verifyLoop env t g fuel).ok then 1 else 0) ∧
      (verifyLoop env t g fuel).saveCalls = (verifyLoop env t g fuel).saves := by
  intro fuel
  induction fuel with
  | zero => intro t g; simp [verifyLoop]
  | succ m ih =>
      intro t g
      cases hc : env.loggedIn t with
      | true => simp [verifyLoop, hc, hs]
      | false =>
          by_cases hm : m = 0
          · subst hm; simp [verifyLoop, hc]
          · simp [verifyLoop, hc, hs, hm]
            exact ih _ _

end Auth

namespace Auth

/-! ### Concrete environments used by counterexamples and witnesses -/

/-- The first navigation raises; nothing else happens. -/
def envGotoFail : Env := ⟨false, fun _ => true, fun _ => false, false⟩

/-- Navigation always succeeds, login is never detected. -/
def envNever : Env := ⟨false, fun _ => false, fun _ => false, false⟩

/-- Navigation always succeeds, login is detected from elapsed second 14
onward. -/
def envAt14 : Env := ⟨false, fun _ => false, fun t => decide (14 ≤ t), false⟩

/-- Navigation always succeeds, login is detected from the start. -/
def envAlways : Env := ⟨false, fun _ => false, fun _ => true, false⟩

end Auth

namespace Auth

/-! ### C1: failure semantics of the orchestrator -/

/-- C1, counterexample.  The claim says every navigation error inside
`handle_authentication` — including the very first
`page.goto(original_url)` — is caught.  On the code, that first `goto`
(auth_handler.py:215) is outside every `try`: when it raises, the
exception propagates to the caller instead of becoming a boolean. -/
theorem claim1_counterexample :
    handle_authentication envGotoFail "https://example.com/a" 60 = .error () := rfl

/-- C1, amended: every navigation error after the initial
`page.goto(original_url)` is caught and treated as transient (backoff and
retry), but the initial `goto` itself is unguarded and propagates; for
every input whose first navigation succeeds, the orchestrator's only
observable outcome is its boolean return value. -/
theorem claim1_amended (env : Env) (url : String) (timeout : Nat)
    (h0 : env.gotoFails 0 = false) :
    ∃ out : AuthOut, handle_authentication env url timeout = .ok out := by
  unfold handle_authentication
  rw [h0]
  simp only [Bool.false_eq_true, if_false]
  split
  · exact ⟨_, rfl⟩
  · split
    · exact ⟨_, rfl⟩
    · exact ⟨_, rfl⟩

/-- C1 witness: the amended theorem at a concrete environment whose first
navigation succeeds. -/
theorem claim1_witness :
    ∃ out : AuthOut, handle_authentication envNever "https://example.com/a" 60 = .ok out :=
  claim1_amended envNever "https://example.com/a" 60 rfl

/-! ### C2: the countdown wait loop -/

/-- C2: for a wait budget of `n ≥ 1` seconds the loop counts remaining
seconds down (the countdown list), polls `is_logged_in` exactly at the
counts divisible by 3, reminds exactly at the counts divisible by 9 while
no poll has succeeded, and sleeps 1 second per completed iteration.  If
every poll fails the loop consumes the full budget and
`handle_authentication` returns `false`; if the first successful poll is
at remaining count `i`, the loop exits early having slept exactly `n - i`
seconds. -/
theorem claim2_wait_loop :
    (∀ (env : Env) (t0 n : Nat), 1 ≤ n → noPollSuccess env t0 n →
       waitLoop env t0 n =
         ⟨false, n, (countdown n).filter (fun i => decide (i % 3 = 0)),
          (countdown n).filter (fun i => decide (i % 9 = 0)), none⟩) ∧
    (∀ (env : Env) (t0 n i : Nat), 1 ≤ i → i ≤ n → i % 3 = 0 →
       env.loggedIn (t0 + (n - i)) = true →
       (∀ j, i < j → j ≤ n → j % 3 = 0 → env.loggedIn (t0 + (n - j)) = false) →
       (waitLoop env t0 n).logged = true ∧ (waitLoop env t0 n).slept = n - i ∧
         (waitLoop env t0 n).breakAt = some i) ∧
    (∀ (env : Env) (url : String) (n : Nat), 1 ≤ n → env.gotoFails 0 = false →
       env.loggedIn 5 = false → noPollSuccess env 5 n →
       handle_authentication env url n = .ok ⟨false, [], 0, true, waitLoop env 5 n⟩) := by
  refine ⟨?_, ?_, ?_⟩
  · intro env t0 n _ h
    exact waitLoop_no_success env n t0 h
  · intro env t0 n i h1 h2 h3 h4 h5
    exact waitLoop_break env n t0 i h1 h2 h3 h4 h5
  · intro env url n _ h0 h5 hns
    have hw := waitLoop_no_success env n 5 hns
    unfold handle_authentication
    rw [h0, h5]
    simp only [Bool.false_eq_true, if_false]
    rw [if_neg]
    rw [hw]
    simp

/-- C2 witness: a 9-second wait with no login (full budget, polls at
9, 6, 3, reminder at 9, result `false`) and a 15-second wait whose first
successful poll is at remaining count 6 (slept exactly 9 seconds). -/
theorem claim2_witness :
    waitLoop envNever 5 9 = ⟨false, 9, [9, 6, 3], [9], none⟩ ∧
    ((waitLoop envAt14 5 15).logged = true ∧ (waitLoop envAt14 5 15).slept = 15 - 6 ∧
      (waitLoop envAt14 5 15).breakAt = some 6) ∧
    handle_authentication envNever "https://example.com/a" 9 =
      .ok ⟨false, [], 0, true, waitLoop envNever 5 9⟩ := by
  refine ⟨?_, ?_, ?_⟩
  · have h := claim2_wait_loop.1 envNever 5 9 (by omega) (fun i _ _ _ => rfl)
    rw [h]
    rfl
  · exact claim2_wait_loop.2.1 envAt14 5 15 6 (by omega) (by omega) (by omega)
      (by rfl)
      (by
        intro j hj1 hj2 hj3
        have hj : j = 9 ∨ j = 12 ∨ j = 15 := by omega
        rcases hj with rfl | rfl | rfl <;> rfl)
  · exact claim2_wait_loop.2.2 envNever "https://example.com/a" 9 (by omega) rfl rfl
      (fun i _ _ _ => rfl)

end Auth

namespace Auth

/-! ### C3: the verification phase -/

/-- C3: the verification loop makes at most 3 attempts; when saving cannot
fail, the first attempt whose `is_logged_in` poll returns `true` saves
cookies exactly once and returns `true` immediately; a failed attempt with
attempts remaining waits 2s, re-navigates, waits 3s (so the next poll is
5 seconds later when the `goto` succeeds) and retries; when all three
polls fail the loop returns `false` with no save; cookies are saved
exactly once on success and never on failure; and on the wait-success path
`handle_authentication` returns exactly the verification loop's verdict,
started at the post-re-navigation time with 3 attempts. -/
theorem claim3_verification :
    (∀ (env : Env) (t g : Nat), (verifyLoop env t g 3).checks.length ≤ 3) ∧
    (∀ (env : Env) (t g fuel : Nat), env.saveFails = false → env.loggedIn t = true →
       verifyLoop env t g (fuel + 1) = ⟨true, 1, 1, [(t, true)]⟩) ∧
    (∀ (env : Env) (t g fuel : Nat), env.loggedIn t = false → fuel ≠ 0 →
       env.gotoFails g = false →
       verifyLoop env t g (fuel + 1) =
         ⟨(verifyLoop env (t + 5) (g + 1) fuel).ok,
          (verifyLoop env (t + 5) (g + 1) fuel).saves,
          (verifyLoop env (t + 5) (g + 1) fuel).saveCalls,
          (t, false) :: (verifyLoop env (t + 5) (g + 1) fuel).checks⟩) ∧
    (∀ (env : Env) (t g : Nat), env.gotoFails g = false → env.gotoFails (g + 1) = false →
       env.loggedIn t = false → env.loggedIn (t + 5) = false →
       env.loggedIn (t + 10) = false →
       verifyLoop env t g 3 = ⟨false, 0, 0, [(t, false), (t + 5, false), (t + 10, false)]⟩) ∧
    (∀ (env : Env) (t g fuel : Nat), env.saveFails = false →
       (verifyLoop env t g fuel).saves = (if (verifyLoop env t g fuel).ok then 1 else 0)) ∧
    (∀ (env : Env) (url : String) (n : Nat), env.gotoFails 0 = false →
       env.loggedIn 5 = false → (waitLoop env 5 n).logged = true →
       handle_authentication env url n =
         .ok ⟨(verifyLoop env (renavTime env (5 + (waitLoop env 5 n).slept))
                 (renavGoto env) 3).ok,
              List.replicate
                (verifyLoop env (renavTime env (5 + (waitLoop env 5 n).slept))
                  (renavGoto env) 3).saves
                (get_cookie_file url),
              (verifyLoop env (renavTime env (5 + (waitLoop env 5 n).slept))
                (renavGoto env) 3).saveCalls,
              true, waitLoop env 5 n⟩) := by
  refine ⟨?_, ?_, ?_, ?_, ?_, ?_⟩
  · intro env t g
    exact verifyLoop_checks_len env 3 t g
  · intro env t g fuel hs ht
    simp [verifyLoop, hs, ht]
  · intro env t g fuel ht hfuel hg
    have h23 : t + 2 + 3 = t + 5 := by omega
    simp [verifyLoop, ht, hfuel, hg, h23]
  · intro env t g hg0 hg1 h1 h2 h3
    have h23 : t + 2 + 3 = t + 5 := by omega
    have h46 : t + 5 + 2 + 3 = t + 10 := by omega
    simp [verifyLoop, h1, h2, h3, hg0, hg1, h23, h46]
  · intro env t g fuel hs
    exact (verifyLoop_saves env hs fuel t g).1
  · intro env url n h0 h5 hw
    unfold handle_authentication
    rw [h0, h5]
    simp only [Bool.false_eq_true, if_false]
    rw [if_pos hw]

/-- C3 witness: the theorem's parts at concrete environments — immediate
verification success with exactly one save; three failed attempts at
elapsed times 0, 5, 10 with no save; the attempt bound; and the
wait-success wiring at a concrete 15-second run. -/
theorem claim3_witness :
    verifyLoop envAlways 7 2 3 = ⟨true, 1, 1, [(7, true)]⟩ ∧
    verifyLoop envNever 0 0 3 = ⟨false, 0, 0, [(0, false), (5, false), (10, false)]⟩ ∧
    (verifyLoop envNever 0 0 3).checks.length ≤ 3 ∧
    handle_authentication envAt14 "https://example.com/a" 15 =
      .ok ⟨(verifyLoop envAt14 (renavTime envAt14 (5 + (waitLoop envAt14 5 15).slept))
              (renavGoto envAt14) 3).ok,
           List.replicate
             (verifyLoop envAt14 (renavTime envAt14 (5 + (waitLoop envAt14 5 15).slept))
               (renavGoto envAt14) 3).saves
             (get_cookie_file "https://example.com/a"),
           (verifyLoop envAt14 (renavTime envAt14 (5 + (waitLoop envAt14 5 15).slept))
             (renavGoto envAt14) 3).saveCalls,
           true, waitLoop envAt14 5 15⟩ := by
  refine ⟨?_, ?_, ?_, ?_⟩
  · exact claim3_verification.2.1 envAlways 7 2 2 rfl rfl
  · exact claim3_verification.2.2.2.1 envNever 0 0 rfl rfl rfl rfl rfl
  · exact claim3_verification.1 envNever 0 0
  · exact claim3_verification.2.2.2.2.2 envAt14 "https://example.com/a" 15 rfl rfl (by rfl)

/-! ### C4: the cookie-file frame condition -/

/-- C4: when `is_logged_in` holds right after the first navigation the
call returns `true` without entering the wait loop and without touching
the cookie file; and (when saving completes) the cookie file of the
derived domain key of `original_url` is written — exactly once — precisely
on the path where the wait loop was entered, login was detected, and a
verification attempt succeeded; both failure outcomes write nothing. -/
theorem claim4_frame :
    (∀ (env : Env) (url : String) (timeout : Nat), env.gotoFails 0 = false →
       env.loggedIn 5 = true →
       handle_authentication env url timeout =
         .ok ⟨true, [], 0, false, ⟨false, 0, [], [], none⟩⟩) ∧
    (∀ (env : Env) (url : String) (timeout : Nat) (out : AuthOut),
       env.saveFails = false →
       handle_authentication env url timeout = .ok out →
       out.savedFiles =
         (if out.ok && out.enteredWait then [get_cookie_file url] else [])) := by
  constructor
  · intro env url timeout h0 h5
    unfold handle_authentication
    rw [h0, h5]
    simp
  · intro env url timeout out hs hout
    unfold handle_authentication at hout
    by_cases h0 : env.gotoFails 0 = true
    · rw [if_pos h0] at hout
      exact absurd hout (by simp)
    · rw [if_neg h0] at hout
      by_cases h5 : env.loggedIn 5 = true
      · rw [if_pos h5] at hout
        injection hout with h
        subst h
        rfl
      · rw [if_neg h5] at hout
        by_cases hw : (waitLoop env 5 timeout).logged = true
        · rw [if_pos hw] at hout
          injection hout with h
          subst h
          dsimp only
          have hv := (verifyLoop_saves env hs 3
            (renavTime env (5 + (waitLoop env 5 timeout).slept)) (renavGoto env)).1
          cases hok : (verifyLoop env (renavTime env (5 + (waitLoop env 5 timeout).slept))
              (renavGoto env) 3).ok with
          | true =>
              rw [hok] at hv
              simp [hv, hok]
          | false =>
              rw [hok] at hv
              simp [hv, hok]
        · rw [if_neg hw] at hout
          injection hout with h
          subst h
          rfl

/-- C4 witness: immediate success writes nothing and skips the wait loop;
a full run that logs in during the wait and verifies writes exactly the
cookie file of the URL's derived domain key. -/
theorem claim4_witness :
    handle_authentication envAlways "https://example.com/a" 60 =
      .ok ⟨true, [], 0, false, ⟨false, 0, [], [], none⟩⟩ ∧
    (⟨false, [], 0, true, waitLoop envNever 5 9⟩ : AuthOut).savedFiles =
      (if (false : Bool) && true then [get_cookie_file "https://example.com/a"] else []) := by
  constructor
  · exact claim4_frame.1 envAlways "https://example.com/a" 60 rfl rfl
  · have h := claim4_frame.2 envNever "https://example.com/a" 9
      ⟨false, [], 0, true, waitLoop envNever 5 9⟩ rfl (by rfl)
    exact h

/-! ### C9: resource cleanup in `run` -/

/-- Authentication succeeds but the scraping phase raises. -/
def scrapeCrashEnv : RunEnv := ⟨false, .ok true, .error ()⟩

/-- Authentication returns `false` (the early-return path). -/
def authFailEnv : RunEnv := ⟨false, .ok false, .ok ()⟩

/-- The fully successful path. -/
def runOkEnv : RunEnv := ⟨false, .ok true, .ok ()⟩

/-- C9 (code bug).  The claim — cleanup on every exit path — matches the
stated design but not the code: when the scraping phase raises after a
successful authentication, the exception propagates out of `run` with
neither `context.close()` nor `browser.close()` executed; on the
authentication-failure early return only the browser is closed, never the
context (lines 393-395); only the fully successful path closes both
(lines 444-445). -/
theorem claim9_cleanup_bug :
    run scrapeCrashEnv = ⟨.error (), false, false⟩ ∧
    run authFailEnv = ⟨.ok (), false, true⟩ ∧
    run runOkEnv = ⟨.ok (), true, true⟩ :=
  ⟨rfl, rfl, rfl⟩

end Auth
